import Mathlib

/-!
Shallow embedding of the Ondo Global Markets Solana program
(`programs/ondo-gm`): fixed-point math, capacity decay, oracle sanity
guard, trading-hours gate, rate limiter, token-limit administration and
the mint/redeem orchestrator, together with theorems checking the
natural-language specification against this embedding.

Machine integers are modelled as `Nat` (u64 / u128, with explicit
`2 ^ 64` / `2 ^ 128` bounds where the source performs checked
arithmetic) and `Int` (i64).  Fallible code returns
`Except OndoError _`.  Solana account plumbing (PDAs, bumps, CPIs,
token transfers) is external to the modelled state; account existence
for the attestation replay guard is modelled as a list of created
`Attestation` records, and the outcome of the external secp256k1
instruction introspection and of the external Pyth oracle read are
passed in as `Except OndoError Unit` parameters.
-/

deriving instance DecidableEq for Except

namespace OndoGM

/-- Size bound of u64 values. -/
def U64_SIZE : Nat := 2 ^ 64

/-- Size bound of u128 values. -/
def U128_SIZE : Nat := 2 ^ 128

/-- Smallest i64 value. -/
def I64_MIN : Int := -(2 ^ 63)

/-- Largest i64 value. -/
def I64_MAX : Int := 2 ^ 63 - 1

/-- `constants.rs`: number of seconds in a day (i64 in the source). -/
def SECONDS_PER_DAY : Int := 86400

/-- `constants.rs`: maximum attestation expiration window in seconds. -/
def MAX_ATTESTATION_EXPIRATION : Int := 30

/-- `constants.rs`: 10^9 scaling factor for price calculations. -/
def PRICE_SCALING_FACTOR : Nat := 1000000000

/-- `constants.rs`: 10000 basis points = 100%. -/
def BASIS_POINTS_DIVISOR : Nat := 10000

/-- Error codes from `errors.rs` (and the abstracted secp256k1
verification errors), restricted to the variants reachable from the
embedded code. -/
inductive OndoError where
  | InvalidAmount
  | InvalidRateLimit
  | MathOverflow
  | DataMismatch
  | AttestationExpired
  | AttestationExpirationTooLarge
  | GMTokenRedemptionPaused
  | GMTokenMintingPaused
  | UserNotWhitelisted
  | PriceExceedsMaxDeviation
  | PriceBelowMinDeviation
  | MaxTimeDelayExceeded
  | AttestationSignerEthAddressNotSet
  | AttestationAlreadyUsed
  | DivideByZero
  | OutsideMarketHours
  | NegativeTimeSinceLastUpdate
  | InvalidTokenAccount
  | SecpVerificationFailed
  | RequireViolated
  deriving DecidableEq

/-- `require!`-style guard: succeeds exactly when the condition holds,
otherwise fails with the given error. -/
def requireP (c : Prop) [Decidable c] (e : OndoError) : Except OndoError Unit :=
  if c then .ok () else .error e

/-- i64 checked subtraction (`checked_sub` on i64 values): fails with
`MathOverflow` when the mathematical difference leaves the i64 range. -/
def checked_sub_i64 (a b : Int) : Except OndoError Int :=
  if a - b < I64_MIN ∨ I64_MAX < a - b then .error .MathOverflow else .ok (a - b)

/-- u64 checked addition (`checked_add` on u64 values). -/
def checked_add_u64 (a b : Nat) : Except OndoError Nat :=
  if a + b < U64_SIZE then .ok (a + b) else .error .MathOverflow

/-- `utils/mul_div.rs`: safely computes `(n0 * n1) / d` over a u128
intermediate, rounding up when `round_up` is set; errors on a zero
divisor and when a checked step or the final u64 conversion overflows. -/
def mul_div (n0 n1 d : Nat) (round_up : Bool) : Except OndoError Nat :=
  if d = 0 then .error .DivideByZero
  else
    let p := n0 * n1
    if U128_SIZE ≤ p then .error .MathOverflow
    else
      let c := if round_up then d - 1 else 0
      if U128_SIZE ≤ p + c then .error .MathOverflow
      else
        let result := (p + c) / d
        if U64_SIZE ≤ result then .error .MathOverflow
        else .ok result

/-- `utils/capacity.rs`: capacity used after linear decay over the
elapsed time; full restore at or beyond the window, error on negative
elapsed time. -/
def calculate_capacity_used (time_since_last_update : Int)
    (limit_window capacity_used rate_limit : Nat) : Except OndoError Nat :=
  if time_since_last_update < 0 then .error .NegativeTimeSinceLastUpdate
  else
    let t := time_since_last_update.toNat
    if limit_window ≤ t then .ok 0
    else
      (mul_div rate_limit t limit_window false).bind fun decay =>
        if decay < capacity_used then .ok (capacity_used - decay)
        else .ok 0

/-- `utils/decimals.rs`: rescales an amount between decimal precisions
by a power-of-ten multiply (checked) or divide (optionally ceiling). -/
def normalize_decimals (amount from_decimals to_decimals : Nat)
    (round_up : Bool) : Except OndoError Nat :=
  if from_decimals < to_decimals then
    let m := amount * 10 ^ (to_decimals - from_decimals)
    if m < U64_SIZE then .ok m else .error .MathOverflow
  else if to_decimals < from_decimals then
    let d := 10 ^ (from_decimals - to_decimals)
    let c := if round_up then d - 1 else 0
    let q := (amount + c) / d
    if q < U64_SIZE then .ok q else .error .MathOverflow
  else .ok amount

/-- `state/sanity_check.rs`: `OracleSanityCheck` record (the mint key
and PDA bump are account plumbing and are omitted). -/
structure OracleSanityCheck where
  last_price : Nat
  allowed_deviation_bps : Nat
  max_time_delay : Int
  price_last_updated : Int
  deriving DecidableEq

/-- `token_manager.rs` `sanity_check`: deviation-band check on the
proposed price followed by a freshness check on the recorded price. -/
def sanity_check (s : OracleSanityCheck) (price : Nat) (current_timestamp : Int) :
    Except OndoError Unit :=
  let prod := s.last_price * s.allowed_deviation_bps
  if U64_SIZE ≤ prod then .error .MathOverflow
  else
    let deviation := prod / BASIS_POINTS_DIVISOR
    if U64_SIZE ≤ s.last_price + deviation then .error .MathOverflow
    else if s.last_price < deviation then .error .MathOverflow
    else
      let max_price := s.last_price + deviation
      let min_price := s.last_price - deviation
      if max_price < price then .error .PriceExceedsMaxDeviation
      else if price < min_price then .error .PriceBelowMinDeviation
      else
        (checked_sub_i64 current_timestamp s.price_last_updated).bind fun elapsed_time =>
          if s.max_time_delay < elapsed_time then .error .MaxTimeDelayExceeded
          else .ok ()

/-- `state/gmtoken_manager_state.rs`: global manager state.  The
20-byte secp signer address is modelled as a `Nat` (byte-string value;
`0` is the all-zero unset marker); execution id and PDA bump are
omitted (untouched by the embedded flows). -/
structure GMTokenManagerState where
  factory_paused : Bool
  redemption_paused : Bool
  minting_paused : Bool
  attestation_signer_secp : Nat
  trading_hours_offset : Int
  deriving DecidableEq

/-- `check_is_valid_hours`: day-of-week gate.  Rust i64 `/` truncates
toward zero (`Int.tdiv`) and `rem_euclid` is `Int.emod`. -/
def check_is_valid_hours (s : GMTokenManagerState) (timestamp : Int) :
    Except OndoError Unit :=
  let adjusted_timestamp := timestamp + s.trading_hours_offset
  let days_since_epoch := adjusted_timestamp.tdiv SECONDS_PER_DAY
  let day_of_week := (days_since_epoch + 3).emod 7
  if day_of_week < 5 then .ok () else .error .OutsideMarketHours

/-- Modelled from the spec: the trading-hours gate as the spec words
it, with floor-division semantics for the day computation (the spec
requires boundary behavior to "match floor-division semantics
exactly"); used to compare the source's truncating division against
the spec's floor division. -/
def check_is_valid_hours_spec_floor (s : GMTokenManagerState) (timestamp : Int) :
    Except OndoError Unit :=
  let adjusted_timestamp := timestamp + s.trading_hours_offset
  let days_since_epoch := adjusted_timestamp.fdiv SECONDS_PER_DAY
  let day_of_week := (days_since_epoch + 3).emod 7
  if day_of_week < 5 then .ok () else .error .OutsideMarketHours

/-- `state/token_limit.rs`: per-asset `TokenLimit` record (pubkeys as
`Nat`, PDA bump omitted). -/
structure TokenLimit where
  mint : Nat
  rate_limit : Option Nat
  limit_window : Option Nat
  mint_capacity_used : Option Nat
  mint_last_updated : Option Int
  redeem_capacity_used : Option Nat
  redeem_last_updated : Option Int
  redemption_paused : Bool
  minting_paused : Bool
  default_user_rate_limit : Option Nat
  default_user_limit_window : Option Nat
  deriving DecidableEq

/-- `state/ondo_user.rs`: per-(user, asset) `OndoUser` record (PDA
bump omitted). -/
structure OndoUser where
  owner : Nat
  mint : Nat
  rate_limit : Option Nat
  limit_window : Option Nat
  mint_capacity_used : Option Nat
  mint_last_updated : Option Int
  redeem_capacity_used : Option Nat
  redeem_last_updated : Option Int
  deriving DecidableEq

/-- `token_manager.rs` `check_token_rate_limit`: asset-level rate
limit check with linear decay, updating the direction's capacity and
timestamp on success. -/
def check_token_rate_limit (tl : TokenLimit) (amount : Nat)
    (current_timestamp : Int) (is_buy : Bool) : Except OndoError TokenLimit :=
  match tl.rate_limit, tl.limit_window with
  | some token_rate_limit, some token_limit_window =>
    (match (if is_buy then tl.mint_capacity_used else tl.redeem_capacity_used) with
      | some c => Except.ok c
      | none => Except.error OndoError.DataMismatch).bind fun token_capacity_used =>
    let token_last_updated :=
      (if is_buy then tl.mint_last_updated else tl.redeem_last_updated).getD current_timestamp
    (checked_sub_i64 current_timestamp token_last_updated).bind fun time_since_last_update =>
    (calculate_capacity_used time_since_last_update token_limit_window
        token_capacity_used token_rate_limit).bind fun current_token_capacity_used =>
    let available_token_capacity :=
      if current_token_capacity_used < token_rate_limit
      then token_rate_limit - current_token_capacity_used else 0
    if available_token_capacity < amount then Except.error OndoError.InvalidRateLimit
    else
      (checked_add_u64 current_token_capacity_used amount).bind fun new_capacity =>
      if is_buy then
        Except.ok { tl with mint_capacity_used := some new_capacity,
                            mint_last_updated := some current_timestamp }
      else
        Except.ok { tl with redeem_capacity_used := some new_capacity,
                            redeem_last_updated := some current_timestamp }
  | _, _ => Except.error OndoError.InvalidRateLimit

/-- `token_manager.rs` `check_user_rate_limit`: user-level rate limit
check, same algorithm as the asset-level one over the `OndoUser`
record. -/
def check_user_rate_limit (ou : OndoUser) (amount : Nat)
    (current_timestamp : Int) (is_buy : Bool) : Except OndoError OndoUser :=
  match ou.rate_limit, ou.limit_window with
  | some user_rate_limit, some user_limit_window =>
    (match (if is_buy then ou.mint_capacity_used else ou.redeem_capacity_used) with
      | some c => Except.ok c
      | none => Except.error OndoError.DataMismatch).bind fun user_capacity_used =>
    let user_last_updated :=
      (if is_buy then ou.mint_last_updated else ou.redeem_last_updated).getD current_timestamp
    (checked_sub_i64 current_timestamp user_last_updated).bind fun time_since_last_update =>
    (calculate_capacity_used time_since_last_update user_limit_window
        user_capacity_used user_rate_limit).bind fun current_user_capacity_used =>
    let available_user_capacity :=
      if current_user_capacity_used < user_rate_limit
      then user_rate_limit - current_user_capacity_used else 0
    if available_user_capacity < amount then Except.error OndoError.InvalidRateLimit
    else
      (checked_add_u64 current_user_capacity_used amount).bind fun new_capacity =>
      if is_buy then
        Except.ok { ou with mint_capacity_used := some new_capacity,
                            mint_last_updated := some current_timestamp }
      else
        Except.ok { ou with redeem_capacity_used := some new_capacity,
                            redeem_last_updated := some current_timestamp }
  | _, _ => Except.error OndoError.InvalidRateLimit

/-- `state/attestation.rs`: the one-time-use replay-guard record
(attestation id as `Nat` value of the 16 bytes, creator pubkey as
`Nat`, PDA bump omitted). -/
structure Attestation where
  attestation_id : Nat
  creator : Nat
  created_at : Int
  deriving DecidableEq

/-- Whether a replay-guard account already exists for an attestation
id (`data_is_empty` is the negation of this). -/
def attestation_exists (l : List Attestation) (id : Nat) : Bool :=
  l.any fun a => a.attestation_id == id

/-- The modelled on-chain state touched by `TokenManager` mint/redeem
flows.  `accounts_valid` is the outcome of `TokenManager::validate`
(token-account wiring checks against external accounts);
`whitelisted` is whether the user's whitelist PDA carries the
`Whitelist` discriminator; `attestations` is the set of created
replay-guard accounts. -/
structure TokenManagerCtx where
  user : Nat
  mint : Nat
  gmtoken_manager_state : GMTokenManagerState
  token_limit_account : TokenLimit
  ondo_user : OndoUser
  sanity_check_account : OracleSanityCheck
  attestations : List Attestation
  whitelisted : Bool
  accounts_valid : Bool
  oracle_price_enabled : Bool
  mint_decimals : Nat
  usdc_decimals : Nat
  usdon_decimals : Nat
  deriving DecidableEq

/-- `initialize_ondo_user`: lazily creates the per-user limiter record
from the asset's defaults on first trade (PDA bump omitted). -/
def initialize_ondo_user (ctx : TokenManagerCtx) : TokenManagerCtx :=
  if ctx.ondo_user.owner ≠ ctx.user then
    { ctx with ondo_user :=
      { owner := ctx.user
        mint := ctx.mint
        rate_limit := ctx.token_limit_account.default_user_rate_limit
        limit_window := ctx.token_limit_account.default_user_limit_window
        mint_capacity_used := some 0
        mint_last_updated := none
        redeem_capacity_used := some 0
        redeem_last_updated := none } }
  else ctx

/-- `initialize_attestation_account`: creates the replay-guard record
when its account is empty, and fails with `AttestationAlreadyUsed`
when the record already exists. -/
def initialize_attestation_account (ctx : TokenManagerCtx)
    (attestation_id : Nat) (timestamp : Int) : Except OndoError TokenManagerCtx :=
  if attestation_exists ctx.attestations attestation_id = false then
    Except.ok { ctx with attestations :=
      { attestation_id := attestation_id
        creator := ctx.user
        created_at := timestamp } :: ctx.attestations }
  else Except.error OndoError.AttestationAlreadyUsed

/-- `verify_attestation`: rejects when the trusted secp signer is
unset; the keccak digest construction and the inspection of the
co-submitted secp256k1 verification instruction are external
(instructions sysvar), so their combined outcome is the
`secp_result` parameter. -/
def verify_attestation (ctx : TokenManagerCtx)
    (secp_result : Except OndoError Unit) : Except OndoError Unit :=
  if ctx.gmtoken_manager_state.attestation_signer_secp = 0 then
    .error .AttestationSignerEthAddressNotSet
  else secp_result

/-- `rate_limit_check`: notional value via round-up `mul_div`, then
both the asset-level and the user-level limiter must pass; both record
updates are threaded through the context. -/
def rate_limit_check (ctx : TokenManagerCtx) (price token_amount : Nat)
    (current_timestamp : Int) (is_buy : Bool) : Except OndoError TokenManagerCtx :=
  (mul_div price token_amount PRICE_SCALING_FACTOR true).bind fun amount =>
  (check_token_rate_limit ctx.token_limit_account amount current_timestamp is_buy).bind fun tl =>
  (check_user_rate_limit ctx.ondo_user amount current_timestamp is_buy).bind fun ou =>
  Except.ok { ctx with token_limit_account := tl, ondo_user := ou }

/-- `swap_usdc_to_usdon`: USDC leg of a mint paid in USDC.  The Pyth
oracle read inside `usdc_oracle_sanity_check` is external, passed as
`oracle_result`; the token transfer is external.  Returns the USDon
amount to burn. -/
def swap_usdc_to_usdon (ctx : TokenManagerCtx)
    (oracle_result : Except OndoError Unit) (amount_in : Nat) :
    Except OndoError Nat :=
  (requireP (0 < amount_in) .RequireViolated).bind fun _ =>
  (if ctx.oracle_price_enabled then oracle_result else Except.ok ()).bind fun _ =>
  normalize_decimals amount_in ctx.usdc_decimals ctx.usdon_decimals false

/-- `swap_usdon_to_usdc`: USDC leg of a redeem paid out in USDC; the
two token transfers are external. -/
def swap_usdon_to_usdc (ctx : TokenManagerCtx)
    (oracle_result : Except OndoError Unit) (amount_in : Nat) :
    Except OndoError Unit :=
  (requireP (0 < amount_in) .RequireViolated).bind fun _ =>
  (if ctx.oracle_price_enabled then oracle_result else Except.ok ()).bind fun _ =>
  (normalize_decimals amount_in ctx.usdon_decimals ctx.usdc_decimals false).bind
    fun normalized_amount_out =>
  (requireP (0 < normalized_amount_out) .InvalidAmount).bind fun _ =>
  (normalize_decimals normalized_amount_out ctx.usdc_decimals ctx.usdon_decimals false).bind
    fun _ => Except.ok ()

/-- `mint_with_attestation`: the buy-side orchestrator.  CPIs
(transfer / burn / mint) are external; `now` is the clock sysvar's
`unix_timestamp`. -/
def mint_with_attestation (ctx : TokenManagerCtx)
    (secp_result oracle_result : Except OndoError Unit)
    (attestation_id price amount : Nat) (expiration : Int)
    (is_usdon : Bool) (now : Int) : Except OndoError TokenManagerCtx :=
  (requireP (ctx.accounts_valid = true) .InvalidTokenAccount).bind fun _ =>
  (requireP (ctx.gmtoken_manager_state.minting_paused = false) .GMTokenMintingPaused).bind fun _ =>
  (requireP (ctx.token_limit_account.minting_paused = false) .GMTokenMintingPaused).bind fun _ =>
  (requireP (ctx.whitelisted = true) .UserNotWhitelisted).bind fun _ =>
  (requireP (0 < amount) .RequireViolated).bind fun _ =>
  (requireP (0 < price) .RequireViolated).bind fun _ =>
  (check_is_valid_hours ctx.gmtoken_manager_state now).bind fun _ =>
  (requireP (now < expiration) .AttestationExpired).bind fun _ =>
  (requireP (expiration - now ≤ MAX_ATTESTATION_EXPIRATION) .AttestationExpirationTooLarge).bind fun _ =>
  let ctx1 := initialize_ondo_user ctx
  (initialize_attestation_account ctx1 attestation_id now).bind fun ctx2 =>
  (verify_attestation ctx2 secp_result).bind fun _ =>
  (sanity_check ctx2.sanity_check_account price now).bind fun _ =>
  (rate_limit_check ctx2 price amount now true).bind fun ctx3 =>
  if is_usdon then
    (mul_div price amount PRICE_SCALING_FACTOR true).bind fun amount_sent =>
    (requireP (0 < amount_sent) .InvalidAmount).bind fun _ =>
    Except.ok ctx3
  else
    (mul_div price amount PRICE_SCALING_FACTOR true).bind fun amount_sent =>
    (normalize_decimals amount_sent ctx3.mint_decimals ctx3.usdc_decimals true).bind
      fun normalized_amount =>
    (swap_usdc_to_usdon ctx3 oracle_result normalized_amount).bind fun _ =>
    Except.ok ctx3

/-- `redeem_with_attestation`: the sell-side orchestrator, symmetric
to the mint flow. -/
def redeem_with_attestation (ctx : TokenManagerCtx)
    (secp_result oracle_result : Except OndoError Unit)
    (attestation_id price amount : Nat) (expiration : Int)
    (is_usdon : Bool) (now : Int) : Except OndoError TokenManagerCtx :=
  (requireP (ctx.accounts_valid = true) .InvalidTokenAccount).bind fun _ =>
  (requireP (ctx.gmtoken_manager_state.redemption_paused = false) .GMTokenRedemptionPaused).bind fun _ =>
  (requireP (ctx.token_limit_account.redemption_paused = false) .GMTokenRedemptionPaused).bind fun _ =>
  (requireP (ctx.whitelisted = true) .UserNotWhitelisted).bind fun _ =>
  (requireP (0 < amount) .RequireViolated).bind fun _ =>
  (requireP (0 < price) .RequireViolated).bind fun _ =>
  (check_is_valid_hours ctx.gmtoken_manager_state now).bind fun _ =>
  (requireP (now < expiration) .AttestationExpired).bind fun _ =>
  (requireP (expiration - now ≤ MAX_ATTESTATION_EXPIRATION) .AttestationExpirationTooLarge).bind fun _ =>
  let ctx1 := initialize_ondo_user ctx
  (initialize_attestation_account ctx1 attestation_id now).bind fun ctx2 =>
  (verify_attestation ctx2 secp_result).bind fun _ =>
  (sanity_check ctx2.sanity_check_account price now).bind fun _ =>
  (rate_limit_check ctx2 price amount now false).bind fun ctx3 =>
  (mul_div price amount PRICE_SCALING_FACTOR false).bind fun mint_amount =>
  (requireP (0 < mint_amount) .InvalidAmount).bind fun _ =>
  (if is_usdon = false then swap_usdon_to_usdc ctx3 oracle_result mint_amount
   else Except.ok ()).bind fun _ =>
  Except.ok ctx3

/-- `token_limit_admin_operations.rs` `initialize_token_limit`:
creates a fresh `TokenLimit` record; provided windows must be
non-zero; capacity-used fields start at `Some 0` exactly when both
global limit fields are provided. -/
def initialize_token_limit (mint : Nat)
    (rate_limit limit_window default_user_rate_limit default_user_limit_window : Option Nat) :
    Except OndoError TokenLimit :=
  (match limit_window with
    | some w => requireP (0 < w) .InvalidRateLimit
    | none => Except.ok ()).bind fun _ =>
  (match default_user_limit_window with
    | some w => requireP (0 < w) .InvalidRateLimit
    | none => Except.ok ()).bind fun _ =>
  let caps : Option Nat × Option Nat :=
    if rate_limit.isSome && limit_window.isSome then (some 0, some 0) else (none, none)
  Except.ok
    { mint := mint
      rate_limit := rate_limit
      limit_window := limit_window
      mint_capacity_used := caps.1
      mint_last_updated := none
      redeem_capacity_used := caps.2
      redeem_last_updated := none
      redemption_paused := false
      minting_paused := false
      default_user_rate_limit := default_user_rate_limit
      default_user_limit_window := default_user_limit_window }

/-- `token_limit_admin_operations.rs` `set_token_limit`: updates any
provided subset of the four limit parameters (each to `Some` of the
new value), then seeds capacity-used fields with `Some 0` when both
global limit fields are now set and a capacity field is still
`None`. -/
def set_token_limit (tl : TokenLimit)
    (rate_limit limit_window default_user_rate_limit default_user_limit_window : Option Nat) :
    Except OndoError TokenLimit :=
  (match limit_window with
    | some w => requireP (0 < w) .InvalidRateLimit
    | none => Except.ok ()).bind fun _ =>
  (match default_user_limit_window with
    | some w => requireP (0 < w) .InvalidRateLimit
    | none => Except.ok ()).bind fun _ =>
  let tl1 := match rate_limit with
    | some r => { tl with rate_limit := some r }
    | none => tl
  let tl2 := match limit_window with
    | some w => { tl1 with limit_window := some w }
    | none => tl1
  let tl3 := match default_user_rate_limit with
    | some r => { tl2 with default_user_rate_limit := some r }
    | none => tl2
  let tl4 := match default_user_limit_window with
    | some w => { tl3 with default_user_limit_window := some w }
    | none => tl3
  let tl5 :=
    if tl4.rate_limit.isSome && tl4.limit_window.isSome then
      let tl5a := if tl4.mint_capacity_used.isNone
        then { tl4 with mint_capacity_used := some 0 } else tl4
      if tl5a.redeem_capacity_used.isNone
        then { tl5a with redeem_capacity_used := some 0 } else tl5a
    else tl4
  Except.ok tl5

/-- A manager state with the given trading-hours offset, no pause
flags set and a configured (non-zero) attestation signer; used for
concrete instances. -/
def mkGmState (off : Int) : GMTokenManagerState :=
  { factory_paused := false
    redemption_paused := false
    minting_paused := false
    attestation_signer_secp := 1
    trading_hours_offset := off }

/-- The spec's concrete sanity-check fixture: last price 10^9, allowed
deviation 500 bps, fresh price. -/
def sanityEx : OracleSanityCheck :=
  { last_price := 1000000000
    allowed_deviation_bps := 500
    max_time_delay := 0
    price_last_updated := 0 }

/-- The spec's concrete rate-limit fixture: rate limit 100, window 60,
mint capacity 100 consumed at t = 0. -/
def tlEx : TokenLimit :=
  { mint := 7
    rate_limit := some 100
    limit_window := some 60
    mint_capacity_used := some 100
    mint_last_updated := some 0
    redeem_capacity_used := some 0
    redeem_last_updated := none
    redemption_paused := false
    minting_paused := false
    default_user_rate_limit := some 100
    default_user_limit_window := some 60 }

/-- A permissive user limiter record for user 1 on mint 2. -/
def ouEx : OndoUser :=
  { owner := 1
    mint := 2
    rate_limit := some 1000000000000
    limit_window := some 60
    mint_capacity_used := some 0
    mint_last_updated := none
    redeem_capacity_used := some 0
    redeem_last_updated := none }

/-- A permissive asset limiter record for mint 2. -/
def tlBenign : TokenLimit :=
  { mint := 2
    rate_limit := some 1000000000000
    limit_window := some 60
    mint_capacity_used := some 0
    mint_last_updated := none
    redeem_capacity_used := some 0
    redeem_last_updated := none
    redemption_paused := false
    minting_paused := false
    default_user_rate_limit := some 1000000000000
    default_user_limit_window := some 60 }

/-- A benign orchestrator context: valid accounts, whitelisted user,
no pauses, configured limits and a wide sanity band; used to witness
the orchestrator theorems on concrete inputs. -/
def ctxEx : TokenManagerCtx :=
  { user := 1
    mint := 2
    gmtoken_manager_state := mkGmState 0
    token_limit_account := tlBenign
    ondo_user := ouEx
    sanity_check_account :=
      { last_price := 1000000000
        allowed_deviation_bps := 500
        max_time_delay := 1000000000
        price_last_updated := 345600 }
    attestations := []
    whitelisted := true
    accounts_valid := true
    oracle_price_enabled := false
    mint_decimals := 9
    usdc_decimals := 6
    usdon_decimals := 9 }

/-- The claim C9 invariant on `TokenLimit` minus its both-or-neither
pair conjunct: configured windows are non-zero, and the capacity-used
fields are `Some` exactly when both global limit fields are set. -/
def token_limit_invariant (tl : TokenLimit) : Prop :=
  (∀ w, tl.limit_window = some w → 0 < w) ∧
  (∀ w, tl.default_user_limit_window = some w → 0 < w) ∧
  (tl.mint_capacity_used.isSome = (tl.rate_limit.isSome && tl.limit_window.isSome)) ∧
  (tl.redeem_capacity_used.isSome = (tl.rate_limit.isSome && tl.limit_window.isSome))

@[simp]
theorem ok_bind {ε α β : Type} (a : α) (f : α → Except ε β) :
    (Except.ok a : Except ε α).bind f = f a := rfl

@[simp]
theorem error_bind {ε α β : Type} (e : ε) (f : α → Except ε β) :
    (Except.error e : Except ε α).bind f = Except.error e := rfl

theorem except_bind_ok {ε α β : Type} {x : Except ε α} {f : α → Except ε β} {b : β} :
    x.bind f = .ok b ↔ ∃ a, x = .ok a ∧ f a = .ok b := by
  cases x <;> simp [Except.bind]

@[simp]
theorem requireP_true {c : Prop} [Decidable c] {e : OndoError} (h : c) :
    requireP c e = .ok () := by
  simp [requireP, h]

@[simp]
theorem requireP_ok_iff {c : Prop} [Decidable c] {e : OndoError} {u : Unit} :
    requireP c e = .ok u ↔ c := by
  by_cases h : c <;> simp [requireP, h]

theorem requireP_false {c : Prop} [Decidable c] {e : OndoError} (h : ¬ c) :
    requireP c e = .error e := by
  simp [requireP, h]

/-- `mul_div` on u64-sized inputs with a non-zero divisor: the u128
intermediate checks never trip, leaving only the final u64 range
check. -/
theorem mul_div_eq (n0 n1 d : Nat) (ru : Bool)
    (h0 : n0 < U64_SIZE) (h1 : n1 < U64_SIZE) (h2 : d < U64_SIZE) (hd : 0 < d) :
    mul_div n0 n1 d ru =
      if U64_SIZE ≤ (n0 * n1 + (if ru then d - 1 else 0)) / d
      then .error .MathOverflow
      else .ok ((n0 * n1 + (if ru then d - 1 else 0)) / d) := by
  have hp2 : n0 * n1 ≤ (2 ^ 64 - 1) * (2 ^ 64 - 1) := by
    apply Nat.mul_le_mul
    · unfold U64_SIZE at h0; omega
    · unfold U64_SIZE at h1; omega
  have hlit : (2 ^ 64 - 1) * (2 ^ 64 - 1) = 340282366920938463426481119284349108225 := by
    norm_num
  rw [hlit] at hp2
  have h00 : ¬ d = 0 := by omega
  have hp : ¬ U128_SIZE ≤ n0 * n1 := by unfold U128_SIZE; omega
  have hpc : ¬ U128_SIZE ≤ n0 * n1 + (if ru then d - 1 else 0) := by
    unfold U128_SIZE
    unfold U64_SIZE at h2
    cases ru <;> simp <;> omega
  simp [mul_div, h00, hp, hpc]

/-- Whenever `mul_div` returns a value, that value is the (floor or
ceiling, by the flag) quotient. -/
theorem mul_div_ok_val {n0 n1 d : Nat} {ru : Bool} {v : Nat}
    (h : mul_div n0 n1 d ru = .ok v) :
    v = (n0 * n1 + (if ru then d - 1 else 0)) / d := by
  unfold mul_div at h
  by_cases hd : d = 0 <;> simp [hd] at h
  by_cases hp : U128_SIZE ≤ n0 * n1 <;> simp [hp] at h
  by_cases hc : U128_SIZE ≤ n0 * n1 + (if ru then d - 1 else 0) <;> simp [hc] at h
  by_cases hr : U64_SIZE ≤ (n0 * n1 + (if ru then d - 1 else 0)) / d <;> simp [hr] at h
  exact h.symm

/-- On u64-sized window and rate limit, `calculate_capacity_used`
never fails for non-negative elapsed time, and the returned value is
the linearly decayed capacity (truncated subtraction). -/
theorem calculate_capacity_used_eq (e : Int) (w c r : Nat)
    (he : 0 ≤ e) (hw : w < U64_SIZE) (hr : r < U64_SIZE) :
    calculate_capacity_used e w c r =
      .ok (if w ≤ e.toNat then 0 else c - r * e.toNat / w) := by
  unfold calculate_capacity_used
  rw [if_neg (by omega : ¬ e < 0)]
  by_cases hcase : w ≤ e.toNat
  · simp [hcase]
  · have ht : e.toNat < w := by omega
    have hwpos : 0 < w := by omega
    have htu : e.toNat < U64_SIZE := by omega
    rw [if_neg hcase, if_neg hcase]
    rw [mul_div_eq r e.toNat w false hr htu hw hwpos]
    have hform : r * e.toNat + (if false = true then w - 1 else 0) = r * e.toNat := by
      simp
    rw [hform]
    have hdle : r * e.toNat / w ≤ r := by
      apply Nat.div_le_of_le_mul
      calc r * e.toNat ≤ r * w := Nat.mul_le_mul_left r (le_of_lt ht)
        _ = w * r := Nat.mul_comm r w
    have hru : ¬ U64_SIZE ≤ r * e.toNat / w := by
      unfold U64_SIZE at *
      omega
    rw [if_neg hru, ok_bind]
    by_cases hsub : r * e.toNat / w < c
    · rw [if_pos hsub]
    · rw [if_neg hsub, Nat.sub_eq_zero_of_le (le_of_not_lt hsub)]

/-- C4: for u64 inputs, `mul_div(n0, n1, d, round_up)` returns the
floor of `(n0*n1)/d` (the ceiling when `round_up`), computed over a
128-bit intermediate; it fails with a divide-by-zero error iff
`d = 0`, and for `d > 0` it fails with an overflow error iff the
mathematical result exceeds the 64-bit maximum.  The two quotient
characterizations pin the floor (greatest `k` with `d*k ≤ n0*n1`) and
ceiling (least `k` with `n0*n1 ≤ d*k`) semantics. -/
theorem C4_mul_div_spec (n0 n1 d : Nat) (ru : Bool)
    (h0 : n0 < U64_SIZE) (h1 : n1 < U64_SIZE) (h2 : d < U64_SIZE) :
    (d = 0 → mul_div n0 n1 d ru = .error .DivideByZero) ∧
    (0 < d →
      ((n0 * n1 + (if ru then d - 1 else 0)) / d < U64_SIZE →
        mul_div n0 n1 d ru = .ok ((n0 * n1 + (if ru then d - 1 else 0)) / d)) ∧
      (U64_SIZE ≤ (n0 * n1 + (if ru then d - 1 else 0)) / d →
        mul_div n0 n1 d ru = .error .MathOverflow) ∧
      (∀ k : Nat, k ≤ n0 * n1 / d ↔ d * k ≤ n0 * n1) ∧
      (∀ k : Nat, (n0 * n1 + d - 1) / d ≤ k ↔ n0 * n1 ≤ d * k)) := by
  constructor
  · intro hd
    simp [mul_div, hd]
  · intro hd
    refine ⟨?_, ?_, ?_, ?_⟩
    · intro hlt
      rw [mul_div_eq n0 n1 d ru h0 h1 h2 hd, if_neg (by omega)]
    · intro hge
      rw [mul_div_eq n0 n1 d ru h0 h1 h2 hd, if_pos hge]
    · intro k
      rw [Nat.le_div_iff_mul_le hd, Nat.mul_comm]
    · intro k
      constructor
      · intro hq
        by_contra hgt
        push_neg at hgt
        have hk1 : (k + 1) * d ≤ n0 * n1 + d - 1 := by
          have : d * k + 1 ≤ n0 * n1 := hgt
          calc (k + 1) * d = d * k + d := by ring
            _ ≤ n0 * n1 + d - 1 := by omega
        have : k + 1 ≤ (n0 * n1 + d - 1) / d := (Nat.le_div_iff_mul_le hd).mpr hk1
        omega
      · intro hle
        have : n0 * n1 + d - 1 < (k + 1) * d := by
          have : (k + 1) * d = d * k + d := by ring
          omega
        have := (Nat.div_lt_iff_lt_mul hd).mpr this
        omega

/-- Closed witness for C4 at a concrete input. -/
theorem C4_witness :
    mul_div 7 5 3 true = Except.ok 12 ∧ mul_div 7 5 3 false = Except.ok 11 := by
  constructor
  · exact ((C4_mul_div_spec 7 5 3 true (by decide) (by decide) (by decide)).2
      (by decide)).1 (by decide)
  · exact ((C4_mul_div_spec 7 5 3 false (by decide) (by decide) (by decide)).2
      (by decide)).1 (by decide)

/-- C5: `calculate_capacity_used(elapsed, window, capacity_used,
rate_limit)` fails iff `elapsed < 0`; for `elapsed ≥ window` it
returns 0; otherwise it returns the truncated difference
`capacity_used - mul_div(rate_limit, elapsed, window, round down)`
(i.e. `max(capacity_used - decay, 0)`). -/
theorem C5_calculate_capacity_used_spec (e : Int) (w c r : Nat)
    (hw : w < U64_SIZE) (hr : r < U64_SIZE) :
    (e < 0 → calculate_capacity_used e w c r = .error .NegativeTimeSinceLastUpdate) ∧
    (0 ≤ e → w ≤ e.toNat → calculate_capacity_used e w c r = .ok 0) ∧
    (0 ≤ e → e.toNat < w →
      calculate_capacity_used e w c r = .ok (c - r * e.toNat / w) ∧
      mul_div r e.toNat w false = .ok (r * e.toNat / w)) := by
  refine ⟨?_, ?_, ?_⟩
  · intro hneg
    unfold calculate_capacity_used
    rw [if_pos hneg]
  · intro he hwin
    rw [calculate_capacity_used_eq e w c r he hw hr, if_pos hwin]
  · intro he hwin
    constructor
    · rw [calculate_capacity_used_eq e w c r he hw hr, if_neg (by omega)]
    · have htu : e.toNat < U64_SIZE := by omega
      rw [mul_div_eq r e.toNat w false hr htu hw (by omega)]
      have hdle : r * e.toNat / w ≤ r := by
        apply Nat.div_le_of_le_mul
        calc r * e.toNat ≤ r * w := Nat.mul_le_mul_left r (le_of_lt hwin)
          _ = w * r := Nat.mul_comm r w
      have hform : r * e.toNat + (if false = true then w - 1 else 0) = r * e.toNat := by
        simp
      rw [hform, if_neg (by unfold U64_SIZE at *; omega)]

/-- Closed witness for C5 at concrete inputs. -/
theorem C5_witness :
    calculate_capacity_used 30 60 100 100 = Except.ok 50 ∧
    calculate_capacity_used (-1) 60 100 100 = Except.error .NegativeTimeSinceLastUpdate ∧
    calculate_capacity_used 60 60 100 100 = Except.ok 0 := by
  refine ⟨?_, ?_, ?_⟩
  · exact ((C5_calculate_capacity_used_spec 30 60 100 100 (by decide) (by decide)).2.2
      (by decide) (by decide)).1
  · exact (C5_calculate_capacity_used_spec (-1) 60 100 100 (by decide) (by decide)).1
      (by decide)
  · exact (C5_calculate_capacity_used_spec 60 60 100 100 (by decide) (by decide)).2.1
      (by decide) (by decide)

/-- Inversion: whenever `calculate_capacity_used` returns a value, the
elapsed time was non-negative and the value is the decay formula. -/
theorem calculate_capacity_used_ok_val {e : Int} {w c r v : Nat}
    (h : calculate_capacity_used e w c r = .ok v) :
    0 ≤ e ∧ v = (if w ≤ e.toNat then 0 else c - r * e.toNat / w) := by
  unfold calculate_capacity_used at h
  by_cases hneg : e < 0
  · simp [hneg] at h
  · refine ⟨by omega, ?_⟩
    rw [if_neg hneg] at h
    by_cases hwin : w ≤ e.toNat
    · rw [if_pos hwin] at h
      rw [if_pos hwin]
      cases h
      rfl
    · rw [if_neg hwin] at h
      rw [if_neg hwin]
      rcases except_bind_ok.mp h with ⟨decay, hmd, hf⟩
      have hval := mul_div_ok_val hmd
      simp at hval
      subst hval
      by_cases hsub : r * e.toNat / w < c
      · rw [if_pos hsub] at hf
        cases hf
        rfl
      · rw [if_neg hsub] at hf
        cases hf
        have := le_of_not_lt hsub
        omega

/-- C8 counterexample: with `window = 0` the zero-elapsed call fully
resets the capacity to 0 instead of returning the stored capacity 1,
refuting the claimed identity `calculate_capacity_used(0, window,
used, rate) = used` for every window. -/
theorem C8_counterexample :
    calculate_capacity_used 0 0 1 0 = Except.ok 0 ∧
    calculate_capacity_used 0 0 1 0 ≠ Except.ok 1 := by
  constructor <;> decide

/-- C8 amended: for non-negative elapsed times the decayed capacity is
monotonically non-increasing in elapsed time, is exactly 0 whenever
`elapsed ≥ window`, and the zero-elapsed call returns the stored
capacity unchanged for every non-zero window (the `window = 0` case
instead resets to 0). -/
theorem C8_capacity_decay_props (w c r : Nat) :
    (∀ e1 e2 : Int, 0 ≤ e1 → e1 ≤ e2 → ∀ v1 v2 : Nat,
      calculate_capacity_used e1 w c r = .ok v1 →
      calculate_capacity_used e2 w c r = .ok v2 → v2 ≤ v1) ∧
    (∀ e : Int, 0 ≤ e → w ≤ e.toNat → calculate_capacity_used e w c r = .ok 0) ∧
    (0 < w → calculate_capacity_used 0 w c r = .ok c) := by
  refine ⟨?_, ?_, ?_⟩
  · intro e1 e2 he1 h12 v1 v2 h1 h2
    obtain ⟨-, hv1⟩ := calculate_capacity_used_ok_val h1
    obtain ⟨-, hv2⟩ := calculate_capacity_used_ok_val h2
    have ht12 : e1.toNat ≤ e2.toNat := Int.toNat_le_toNat h12
    subst hv1
    subst hv2
    by_cases hw2 : w ≤ e2.toNat
    · simp [hw2]
    · have hw1 : ¬ w ≤ e1.toNat := by omega
      rw [if_neg hw1, if_neg hw2]
      have hdiv : r * e1.toNat / w ≤ r * e2.toNat / w :=
        Nat.div_le_div_right (Nat.mul_le_mul_left r ht12)
      exact Nat.sub_le_sub_left hdiv c
  · intro e he hwin
    unfold calculate_capacity_used
    rw [if_neg (by omega : ¬ e < 0), if_pos hwin]
  · intro hw0
    have hwne : ¬ w = 0 := by omega
    have h0 : ¬ w ≤ (0 : Int).toNat := by simp; omega
    unfold calculate_capacity_used mul_div
    rw [if_neg (by decide : ¬ (0 : Int) < 0), if_neg h0]
    simp [hwne, U128_SIZE, U64_SIZE]
    omega

/-- Closed witness for C8 at concrete inputs. -/
theorem C8_witness :
    calculate_capacity_used 0 60 100 100 = Except.ok 100 ∧
    calculate_capacity_used 60 60 100 100 = Except.ok 0 := by
  constructor
  · exact (C8_capacity_decay_props 60 100 100).2.2 (by decide)
  · exact (C8_capacity_decay_props 60 100 100).2.1 60 (by decide) (by decide)

/-- Rust's truncating i64 division agrees with floor division on
non-negative numerators (positive divisor 86400). -/
theorem tdiv_eq_fdiv_of_nonneg (a : Int) (ha : 0 ≤ a) :
    a.tdiv 86400 = a.fdiv 86400 := by
  obtain ⟨m, rfl⟩ := Int.eq_ofNat_of_zero_le ha
  cases m <;> rfl

/-- C6 counterexample: at the adjusted timestamp -259201 (a Sunday
before the epoch) the code's truncating division accepts the trade
while the spec's floor-division semantics rejects it, refuting the
claim that boundary behavior matches floor-division semantics for
every timestamp including pre-epoch adjusted timestamps. -/
theorem C6_counterexample :
    check_is_valid_hours (mkGmState 0) (-259201) = Except.ok () ∧
    check_is_valid_hours_spec_floor (mkGmState 0) (-259201) =
      Except.error .OutsideMarketHours := by
  constructor <;> decide

/-- C6 amended: `check_is_valid_hours(now)` computes `adjusted = now +
trading_hours_offset` and `day = (adjusted / 86400 + 3) mod 7` with
Rust's truncating division (0 = Monday), succeeding iff `day < 5`;
its boundary behavior matches floor-division semantics exactly for
all non-negative adjusted timestamps (pre-epoch adjusted timestamps
diverge); with offset 0 the timestamp `2*86400` is rejected and
`2*86400 - 1` is accepted. -/
theorem C6_trading_hours_spec :
    (∀ (s : GMTokenManagerState) (now : Int),
      (check_is_valid_hours s now = .ok () ↔
        ((now + s.trading_hours_offset).tdiv 86400 + 3).emod 7 < 5) ∧
      (0 ≤ now + s.trading_hours_offset →
        check_is_valid_hours s now = check_is_valid_hours_spec_floor s now)) ∧
    check_is_valid_hours (mkGmState 0) (2 * 86400) = Except.error .OutsideMarketHours ∧
    check_is_valid_hours (mkGmState 0) (2 * 86400 - 1) = Except.ok () := by
  refine ⟨?_, by decide, by decide⟩
  intro s now
  constructor
  · simp only [check_is_valid_hours, SECONDS_PER_DAY]
    split_ifs with h
    · simp [h]
    · simp [h]
  · intro hpos
    simp only [check_is_valid_hours, check_is_valid_hours_spec_floor, SECONDS_PER_DAY]
    simp only [tdiv_eq_fdiv_of_nonneg _ hpos]

/-- Closed witness for C6 at concrete inputs. -/
theorem C6_witness :
    check_is_valid_hours (mkGmState 0) 0 = Except.ok () ∧
    check_is_valid_hours (mkGmState 0) 86400 =
      check_is_valid_hours_spec_floor (mkGmState 0) 86400 := by
  constructor
  · exact (C6_trading_hours_spec.1 (mkGmState 0) 0).1.mpr (by decide)
  · exact (C6_trading_hours_spec.1 (mkGmState 0) 86400).2 (by decide)

/-- C3: under the documented state invariants (deviation bps at most
10000) and in the u64/i64-representable range, `sanity_check(price,
now)` succeeds iff `last_price - deviation ≤ price ≤ last_price +
deviation` and `now - price_last_updated ≤ max_time_delay`, where
`deviation = ⌊last_price * allowed_deviation_bps / 10000⌋`; a price
above the band fails with the distinct exceeds-max error and a price
below it with the distinct below-min error.  With last price 10^9 and
500 bps every price in [950000000, 1050000000] is accepted and
1050000001 is rejected. -/
theorem C3_sanity_check_spec :
    (∀ (s : OracleSanityCheck) (price : Nat) (now : Int),
      s.allowed_deviation_bps ≤ 10000 →
      s.last_price * s.allowed_deviation_bps < U64_SIZE →
      s.last_price + s.last_price * s.allowed_deviation_bps / 10000 < U64_SIZE →
      I64_MIN ≤ now - s.price_last_updated →
      now - s.price_last_updated ≤ I64_MAX →
      (sanity_check s price now = .ok () ↔
        (s.last_price - s.last_price * s.allowed_deviation_bps / 10000 ≤ price ∧
         price ≤ s.last_price + s.last_price * s.allowed_deviation_bps / 10000 ∧
         now - s.price_last_updated ≤ s.max_time_delay)) ∧
      (s.last_price + s.last_price * s.allowed_deviation_bps / 10000 < price →
        sanity_check s price now = .error .PriceExceedsMaxDeviation) ∧
      (price < s.last_price - s.last_price * s.allowed_deviation_bps / 10000 →
        sanity_check s price now = .error .PriceBelowMinDeviation)) ∧
    (∀ price : Nat, 950000000 ≤ price → price ≤ 1050000000 →
      sanity_check sanityEx price 0 = .ok ()) ∧
    sanity_check sanityEx 1050000001 0 = Except.error .PriceExceedsMaxDeviation := by
  have hmain : ∀ (s : OracleSanityCheck) (price : Nat) (now : Int),
      s.allowed_deviation_bps ≤ 10000 →
      s.last_price * s.allowed_deviation_bps < U64_SIZE →
      s.last_price + s.last_price * s.allowed_deviation_bps / 10000 < U64_SIZE →
      I64_MIN ≤ now - s.price_last_updated →
      now - s.price_last_updated ≤ I64_MAX →
      (sanity_check s price now = .ok () ↔
        (s.last_price - s.last_price * s.allowed_deviation_bps / 10000 ≤ price ∧
         price ≤ s.last_price + s.last_price * s.allowed_deviation_bps / 10000 ∧
         now - s.price_last_updated ≤ s.max_time_delay)) ∧
      (s.last_price + s.last_price * s.allowed_deviation_bps / 10000 < price →
        sanity_check s price now = .error .PriceExceedsMaxDeviation) ∧
      (price < s.last_price - s.last_price * s.allowed_deviation_bps / 10000 →
        sanity_check s price now = .error .PriceBelowMinDeviation) := by
    intro s price now hbps hprod hmax hlo hhi
    have hdevle : s.last_price * s.allowed_deviation_bps / 10000 ≤ s.last_price := by
      apply Nat.div_le_of_le_mul
      calc s.last_price * s.allowed_deviation_bps ≤ s.last_price * 10000 :=
            Nat.mul_le_mul_left s.last_price hbps
        _ = 10000 * s.last_price := Nat.mul_comm _ _
    have hsub : checked_sub_i64 now s.price_last_updated =
        Except.ok (now - s.price_last_updated) := by
      unfold checked_sub_i64
      rw [if_neg (by unfold I64_MIN I64_MAX at *; omega)]
    have hred : sanity_check s price now =
        (if s.last_price + s.last_price * s.allowed_deviation_bps / 10000 < price
         then Except.error .PriceExceedsMaxDeviation
         else if price < s.last_price - s.last_price * s.allowed_deviation_bps / 10000
         then Except.error .PriceBelowMinDeviation
         else if s.max_time_delay < now - s.price_last_updated
         then Except.error .MaxTimeDelayExceeded
         else Except.ok ()) := by
      unfold sanity_check BASIS_POINTS_DIVISOR
      rw [if_neg (by omega), if_neg (by omega), if_neg (by omega), hsub]
      simp only [ok_bind]
    rw [hred]
    refine ⟨?_, ?_, ?_⟩
    · split_ifs with h1 h2 h3 <;> simp <;> omega
    · intro h
      rw [if_pos h]
    · intro h
      rw [if_neg (by omega), if_pos h]
  refine ⟨hmain, ?_, ?_⟩
  · intro price h1 h2
    refine (hmain sanityEx price 0 (by decide) (by decide) (by decide) (by decide)
      (by decide)).1.mpr ?_
    refine ⟨?_, ?_, ?_⟩ <;> simp [sanityEx] <;> omega
  · exact (hmain sanityEx 1050000001 0 (by decide) (by decide) (by decide) (by decide)
      (by decide)).2.1 (by decide)

/-- Closed witness for C3 at a concrete input. -/
theorem C3_witness : sanity_check sanityEx 1000000000 0 = Except.ok () :=
  C3_sanity_check_spec.2.1 1000000000 (by decide) (by decide)

/-- C9 counterexample: initializing a `TokenLimit` with `rate_limit =
Some 5` and `limit_window = None` succeeds and stores the mixed pair,
refuting the claimed both-set-or-both-absent invariant. -/
theorem C9_counterexample :
    initialize_token_limit 0 (some 5) none none none = Except.ok
      { mint := 0
        rate_limit := some 5
        limit_window := none
        mint_capacity_used := none
        mint_last_updated := none
        redeem_capacity_used := none
        redeem_last_updated := none
        redemption_paused := false
        minting_paused := false
        default_user_rate_limit := none
        default_user_limit_window := none } := by
  rfl

set_option maxHeartbeats 1600000 in
/-- C9 amended: across initialization and every administrative
update, the `TokenLimit` record maintains that any configured
(default-user or global) limit window is non-zero and that the
mint/redeem capacity-used fields are `Some` iff both `rate_limit` and
`limit_window` are set; `rate_limit` and `limit_window` themselves can
be set independently, so the both-set-or-both-absent pair invariant
does not hold. -/
theorem C9_token_limit_admin_invariant :
    (∀ mint rl lw du dw tl,
      initialize_token_limit mint rl lw du dw = .ok tl → token_limit_invariant tl) ∧
    (∀ tl rl lw du dw tl',
      token_limit_invariant tl →
      set_token_limit tl rl lw du dw = .ok tl' → token_limit_invariant tl') := by
  constructor
  · intro mint rl lw du dw tl h
    unfold initialize_token_limit at h
    rcases except_bind_ok.mp h with ⟨u1, hlw, h⟩
    rcases except_bind_ok.mp h with ⟨u2, hdw, h⟩
    cases h
    unfold token_limit_invariant
    refine ⟨?_, ?_, ?_, ?_⟩
    · intro w hw
      rcases lw with _ | w'
      · cases hw
      · cases hw
        exact requireP_ok_iff.mp hlw
    · intro v hv
      rcases dw with _ | v'
      · cases hv
      · cases hv
        exact requireP_ok_iff.mp hdw
    · by_cases hc : (rl.isSome && lw.isSome) = true <;> simp [hc]
    · by_cases hc : (rl.isSome && lw.isSome) = true <;> simp [hc]
  · intro tl rl lw du dw tl' hinv h
    obtain ⟨hw1, hw2, hc1, hc2⟩ := hinv
    unfold set_token_limit at h
    rcases except_bind_ok.mp h with ⟨u1, hlw, h⟩
    rcases except_bind_ok.mp h with ⟨u2, hdw, h⟩
    cases h
    have hlw' : ∀ w, lw = some w → 0 < w := by
      intro w hw
      subst hw
      exact requireP_ok_iff.mp hlw
    have hdw' : ∀ v, dw = some v → 0 < v := by
      intro v hv
      subst hv
      exact requireP_ok_iff.mp hdw
    clear hlw hdw
    unfold token_limit_invariant
    obtain ⟨m0, rl0, lw0, mc0, ml0, rc0, ru0, rp0, mp0, dr0, dw0⟩ := tl
    rcases rl with _ | r <;> rcases lw with _ | w <;>
      rcases du with _ | u3 <;> rcases dw with _ | v3 <;>
      dsimp only at hc1 hc2 ⊢ <;>
      split_ifs <;>
      simp_all <;>
      rcases mc0 with _ | mcv <;> rcases rc0 with _ | rcv <;> simp_all

/-- Closed witness for C9 on a fully configured initialization. -/
theorem C9_witness :
    token_limit_invariant
      { mint := 3
        rate_limit := some 10
        limit_window := some 60
        mint_capacity_used := some 0
        mint_last_updated := none
        redeem_capacity_used := some 0
        redeem_last_updated := none
        redemption_paused := false
        minting_paused := false
        default_user_rate_limit := none
        default_user_limit_window := none } :=
  C9_token_limit_admin_invariant.1 3 (some 10) (some 60) none none _ (by rfl)

/-- C10: in both the asset-level and user-level rate limit checks, a
`None` last-updated timestamp for the trade's direction is treated as
the current timestamp, so elapsed time is 0, no decay is applied, and
(for a configured non-zero window) the stored capacity counts in full:
the check fails exactly when the requested amount exceeds `rate_limit
- capacity_used`. -/
theorem C10_last_updated_none_spec :
    (∀ (tl : TokenLimit) (amount : Nat) (now : Int),
      tl.mint_last_updated = none →
      check_token_rate_limit tl amount now true =
        check_token_rate_limit { tl with mint_last_updated := some now } amount now true) ∧
    (∀ (tl : TokenLimit) (amount : Nat) (now : Int),
      tl.redeem_last_updated = none →
      check_token_rate_limit tl amount now false =
        check_token_rate_limit { tl with redeem_last_updated := some now } amount now false) ∧
    (∀ (ou : OndoUser) (amount : Nat) (now : Int),
      ou.mint_last_updated = none →
      check_user_rate_limit ou amount now true =
        check_user_rate_limit { ou with mint_last_updated := some now } amount now true) ∧
    (∀ (ou : OndoUser) (amount : Nat) (now : Int),
      ou.redeem_last_updated = none →
      check_user_rate_limit ou amount now false =
        check_user_rate_limit { ou with redeem_last_updated := some now } amount now false) ∧
    (∀ (tl : TokenLimit) (rl lw cap amount : Nat) (now : Int),
      tl.rate_limit = some rl → tl.limit_window = some lw → 0 < lw → lw < U64_SIZE →
      rl < U64_SIZE → tl.mint_capacity_used = some cap → tl.mint_last_updated = none →
      ((rl - cap < amount →
        check_token_rate_limit tl amount now true = .error .InvalidRateLimit) ∧
       (amount ≤ rl - cap → cap + amount < U64_SIZE →
        check_token_rate_limit tl amount now true =
          .ok { tl with mint_capacity_used := some (cap + amount),
                        mint_last_updated := some now }))) := by
  refine ⟨?_, ?_, ?_, ?_, ?_⟩
  · intro tl amount now hnone
    obtain ⟨m0, rl0, lw0, mc0, ml0, rc0, ru0, rp0, mp0, dr0, dw0⟩ := tl
    cases hnone
    rcases rl0 with _ | r <;> rcases lw0 with _ | w <;> rfl
  · intro tl amount now hnone
    obtain ⟨m0, rl0, lw0, mc0, ml0, rc0, ru0, rp0, mp0, dr0, dw0⟩ := tl
    cases hnone
    rcases rl0 with _ | r <;> rcases lw0 with _ | w <;> rfl
  · intro ou amount now hnone
    obtain ⟨o0, m0, rl0, lw0, mc0, ml0, rc0, ru0⟩ := ou
    cases hnone
    rcases rl0 with _ | r <;> rcases lw0 with _ | w <;> rfl
  · intro ou amount now hnone
    obtain ⟨o0, m0, rl0, lw0, mc0, ml0, rc0, ru0⟩ := ou
    cases hnone
    rcases rl0 with _ | r <;> rcases lw0 with _ | w <;> rfl
  · intro tl rl lw cap amount now hrl hlw hlw0 hlwu hrlu hcap hnone
    have hsub : checked_sub_i64 now now = Except.ok 0 := by
      unfold checked_sub_i64 I64_MIN I64_MAX
      rw [if_neg (by omega)]
      norm_num
    have hdecay : calculate_capacity_used 0 lw cap rl = .ok cap := by
      rw [calculate_capacity_used_eq 0 lw cap rl (by decide) hlwu hrlu]
      simp
      omega
    have hred : check_token_rate_limit tl amount now true =
        (if (if cap < rl then rl - cap else 0) < amount
         then Except.error OndoError.InvalidRateLimit
         else (checked_add_u64 cap amount).bind fun new_capacity =>
           Except.ok { tl with mint_capacity_used := some new_capacity,
                               mint_last_updated := some now }) := by
      unfold check_token_rate_limit
      rw [hrl, hlw]
      simp only [hcap, hnone, if_true, Option.getD_none]
      have : (if true = true then some cap else tl.redeem_capacity_used) = some cap := rfl
      simp only [this, ok_bind]
      rw [hsub, ok_bind, hdecay, ok_bind]
    have havail : (if cap < rl then rl - cap else 0) = rl - cap := by
      by_cases hc : cap < rl
      · rw [if_pos hc]
      · rw [if_neg hc, Nat.sub_eq_zero_of_le (le_of_not_lt hc)]
    rw [hred, havail]
    constructor
    · intro hfail
      rw [if_pos hfail]
    · intro hpass hadd
      rw [if_neg (by omega)]
      unfold checked_add_u64
      rw [if_pos hadd, ok_bind]

/-- Closed witness for C10 at a concrete input. -/
theorem C10_witness :
    check_token_rate_limit { tlEx with mint_last_updated := none } 1 30 true =
      Except.error .InvalidRateLimit :=
  (C10_last_updated_none_spec.2.2.2.2 { tlEx with mint_last_updated := none }
    100 60 100 1 30 rfl rfl (by decide) (by decide) (by decide) rfl rfl).1 (by decide)

/-- C2: the rate limiter computes the notional as `mul_div(price,
token_amount, 10^9, round up)` and requires both the asset-level and
the user-level granularity to pass; an unconfigured limit pair at
either granularity fails with the rate-limit error; a configured
granularity decays the stored capacity by `calculate_capacity_used`,
fails when the notional exceeds `rate_limit - decayed` (clamped at 0),
and otherwise persists `capacity_used = decayed + notional` and
`last_updated = now`.  With rate limit 100 and window 60, after
consuming 100 at t = 0, at t = 30 a trade of notional 60 fails, while
a trade of notional 50 succeeds and leaves `capacity_used = 100`. -/
theorem C2_rate_limiter_spec :
    (∀ (ctx : TokenManagerCtx) (price token_amount notional : Nat) (now : Int)
        (is_buy : Bool),
      mul_div price token_amount PRICE_SCALING_FACTOR true = .ok notional →
      rate_limit_check ctx price token_amount now is_buy =
        (check_token_rate_limit ctx.token_limit_account notional now is_buy).bind fun tl =>
        (check_user_rate_limit ctx.ondo_user notional now is_buy).bind fun ou =>
        Except.ok { ctx with token_limit_account := tl, ondo_user := ou }) ∧
    (∀ (ctx : TokenManagerCtx) (price token_amount notional : Nat) (now : Int)
        (is_buy : Bool) (err : OndoError),
      mul_div price token_amount PRICE_SCALING_FACTOR true = .ok notional →
      check_token_rate_limit ctx.token_limit_account notional now is_buy = .error err →
      rate_limit_check ctx price token_amount now is_buy = .error err) ∧
    (∀ (ctx : TokenManagerCtx) (price token_amount notional : Nat) (now : Int)
        (is_buy : Bool) (tl : TokenLimit) (err : OndoError),
      mul_div price token_amount PRICE_SCALING_FACTOR true = .ok notional →
      check_token_rate_limit ctx.token_limit_account notional now is_buy = .ok tl →
      check_user_rate_limit ctx.ondo_user notional now is_buy = .error err →
      rate_limit_check ctx price token_amount now is_buy = .error err) ∧
    (∀ (tl : TokenLimit) (amount : Nat) (now : Int) (is_buy : Bool),
      tl.rate_limit = none ∨ tl.limit_window = none →
      check_token_rate_limit tl amount now is_buy = .error .InvalidRateLimit) ∧
    (∀ (ou : OndoUser) (amount : Nat) (now : Int) (is_buy : Bool),
      ou.rate_limit = none ∨ ou.limit_window = none →
      check_user_rate_limit ou amount now is_buy = .error .InvalidRateLimit) ∧
    (∀ (tl : TokenLimit) (rl lw cap decayed amount : Nat) (lu now : Int),
      tl.rate_limit = some rl → tl.limit_window = some lw →
      tl.mint_capacity_used = some cap → tl.mint_last_updated = some lu →
      I64_MIN ≤ now - lu → now - lu ≤ I64_MAX →
      calculate_capacity_used (now - lu) lw cap rl = .ok decayed →
      ((rl - decayed < amount →
        check_token_rate_limit tl amount now true = .error .InvalidRateLimit) ∧
       (amount ≤ rl - decayed → decayed + amount < U64_SIZE →
        check_token_rate_limit tl amount now true =
          .ok { tl with mint_capacity_used := some (decayed + amount),
                        mint_last_updated := some now }))) ∧
    (∀ (tl : TokenLimit) (rl lw cap decayed amount : Nat) (lu now : Int),
      tl.rate_limit = some rl → tl.limit_window = some lw →
      tl.redeem_capacity_used = some cap → tl.redeem_last_updated = some lu →
      I64_MIN ≤ now - lu → now - lu ≤ I64_MAX →
      calculate_capacity_used (now - lu) lw cap rl = .ok decayed →
      ((rl - decayed < amount →
        check_token_rate_limit tl amount now false = .error .InvalidRateLimit) ∧
       (amount ≤ rl - decayed → decayed + amount < U64_SIZE →
        check_token_rate_limit tl amount now false =
          .ok { tl with redeem_capacity_used := some (decayed + amount),
                        redeem_last_updated := some now }))) ∧
    mul_div 60000000000 1 PRICE_SCALING_FACTOR true = Except.ok 60 ∧
    check_token_rate_limit tlEx 60 30 true = Except.error .InvalidRateLimit ∧
    check_token_rate_limit tlEx 50 30 true =
      Except.ok { tlEx with mint_capacity_used := some 100, mint_last_updated := some 30 } := by
  refine ⟨?_, ?_, ?_, ?_, ?_, ?_, ?_, by decide, by decide, by decide⟩
  · intro ctx price token_amount notional now is_buy hmd
    unfold rate_limit_check
    rw [hmd, ok_bind]
  · intro ctx price token_amount notional now is_buy err hmd htl
    unfold rate_limit_check
    rw [hmd, ok_bind, htl, error_bind]
  · intro ctx price token_amount notional now is_buy tl err hmd htl hou
    unfold rate_limit_check
    rw [hmd, ok_bind, htl, ok_bind, hou, error_bind]
  · intro tl amount now is_buy h
    rcases hrl : tl.rate_limit with _ | r
    · simp [check_token_rate_limit, hrl]
    · rcases h with h | h
      · rw [h] at hrl
        cases hrl
      · simp [check_token_rate_limit, hrl, h]
  · intro ou amount now is_buy h
    rcases hrl : ou.rate_limit with _ | r
    · simp [check_user_rate_limit, hrl]
    · rcases h with h | h
      · rw [h] at hrl
        cases hrl
      · simp [check_user_rate_limit, hrl, h]
  · intro tl rl lw cap decayed amount lu now hrl hlw hcap hlu hlo hhi hdec
    have hsub : checked_sub_i64 now lu = Except.ok (now - lu) := by
      unfold checked_sub_i64
      rw [if_neg (by unfold I64_MIN I64_MAX at *; omega)]
    have havail : (if decayed < rl then rl - decayed else 0) = rl - decayed := by
      by_cases hc : decayed < rl
      · rw [if_pos hc]
      · rw [if_neg hc, Nat.sub_eq_zero_of_le (le_of_not_lt hc)]
    constructor
    · intro hfail
      simp [check_token_rate_limit, hrl, hlw, hcap, hlu, hsub, hdec, havail, hfail]
    · intro hpass hadd
      simp [check_token_rate_limit, hrl, hlw, hcap, hlu, hsub, hdec, havail,
        checked_add_u64, hadd, (show ¬ rl - decayed < amount by omega)]
  · intro tl rl lw cap decayed amount lu now hrl hlw hcap hlu hlo hhi hdec
    have hsub : checked_sub_i64 now lu = Except.ok (now - lu) := by
      unfold checked_sub_i64
      rw [if_neg (by unfold I64_MIN I64_MAX at *; omega)]
    have havail : (if decayed < rl then rl - decayed else 0) = rl - decayed := by
      by_cases hc : decayed < rl
      · rw [if_pos hc]
      · rw [if_neg hc, Nat.sub_eq_zero_of_le (le_of_not_lt hc)]
    constructor
    · intro hfail
      simp [check_token_rate_limit, hrl, hlw, hcap, hlu, hsub, hdec, havail, hfail]
    · intro hpass hadd
      simp [check_token_rate_limit, hrl, hlw, hcap, hlu, hsub, hdec, havail,
        checked_add_u64, hadd, (show ¬ rl - decayed < amount by omega)]

/-- Closed witness for C2: the spec's worked example, applied through
the configured-granularity characterization. -/
theorem C2_witness :
    check_token_rate_limit tlEx 50 30 true =
      Except.ok { tlEx with mint_capacity_used := some 100, mint_last_updated := some 30 } :=
  (C2_rate_limiter_spec.2.2.2.2.2.1 tlEx 100 60 100 50 50 0 30 rfl rfl rfl rfl
    (by decide) (by decide) (by decide)).2 (by decide) (by decide)

/-- `initialize_ondo_user` touches only the `ondo_user` record. -/
theorem initialize_ondo_user_fields (ctx : TokenManagerCtx) :
    (initialize_ondo_user ctx).attestations = ctx.attestations ∧
    (initialize_ondo_user ctx).user = ctx.user ∧
    (initialize_ondo_user ctx).gmtoken_manager_state = ctx.gmtoken_manager_state ∧
    (initialize_ondo_user ctx).token_limit_account = ctx.token_limit_account := by
  unfold initialize_ondo_user
  split_ifs <;> exact ⟨rfl, rfl, rfl, rfl⟩

/-- Inversion for a successful replay-guard creation: the record did
not exist and is prepended, and the rest of the context is kept. -/
theorem initialize_attestation_account_ok {ctx ctx' : TokenManagerCtx}
    {id : Nat} {ts : Int}
    (h : initialize_attestation_account ctx id ts = .ok ctx') :
    attestation_exists ctx.attestations id = false ∧
    ctx'.attestations =
      { attestation_id := id, creator := ctx.user, created_at := ts } :: ctx.attestations := by
  unfold initialize_attestation_account at h
  by_cases hex : attestation_exists ctx.attestations id = false
  · rw [if_pos hex] at h
    cases h
    exact ⟨hex, rfl⟩
  · rw [if_neg hex] at h
    cases h

/-- A pre-existing replay-guard record short-circuits creation. -/
theorem initialize_attestation_account_used {ctx : TokenManagerCtx}
    {id : Nat} {ts : Int}
    (h : attestation_exists ctx.attestations id = true) :
    initialize_attestation_account ctx id ts = .error .AttestationAlreadyUsed := by
  unfold initialize_attestation_account
  rw [if_neg (by simp [h])]

/-- `rate_limit_check` only rewrites the two limiter records. -/
theorem rate_limit_check_ok_attestations {ctx ctx' : TokenManagerCtx}
    {price token_amount : Nat} {now : Int} {is_buy : Bool}
    (h : rate_limit_check ctx price token_amount now is_buy = .ok ctx') :
    ctx'.attestations = ctx.attestations := by
  unfold rate_limit_check at h
  rcases except_bind_ok.mp h with ⟨a, -, h⟩
  rcases except_bind_ok.mp h with ⟨tl, -, h⟩
  rcases except_bind_ok.mp h with ⟨ou, -, h⟩
  cases h
  rfl

/-- C1: in both trade flows, once the checks preceding the replay
guard pass, a pre-existing `Attestation` record for the submitted id
aborts the operation with the dedicated already-used error — for every
signature-verification outcome, price and amount, i.e. before
attestation signature verification runs; and every successful trade
starts from a state without the record and ends with it created. -/
theorem C1_replay_guard_spec :
    (∀ (ctx : TokenManagerCtx) (secp_result oracle_result : Except OndoError Unit)
        (attestation_id price amount : Nat) (expiration : Int) (is_usdon : Bool) (now : Int),
      ctx.accounts_valid = true →
      ctx.gmtoken_manager_state.minting_paused = false →
      ctx.token_limit_account.minting_paused = false →
      ctx.whitelisted = true →
      0 < amount → 0 < price →
      check_is_valid_hours ctx.gmtoken_manager_state now = .ok () →
      now < expiration → expiration - now ≤ MAX_ATTESTATION_EXPIRATION →
      attestation_exists ctx.attestations attestation_id = true →
      mint_with_attestation ctx secp_result oracle_result attestation_id price amount
        expiration is_usdon now = .error .AttestationAlreadyUsed) ∧
    (∀ (ctx : TokenManagerCtx) (secp_result oracle_result : Except OndoError Unit)
        (attestation_id price amount : Nat) (expiration : Int) (is_usdon : Bool) (now : Int),
      ctx.accounts_valid = true →
      ctx.gmtoken_manager_state.redemption_paused = false →
      ctx.token_limit_account.redemption_paused = false →
      ctx.whitelisted = true →
      0 < amount → 0 < price →
      check_is_valid_hours ctx.gmtoken_manager_state now = .ok () →
      now < expiration → expiration - now ≤ MAX_ATTESTATION_EXPIRATION →
      attestation_exists ctx.attestations attestation_id = true →
      redeem_with_attestation ctx secp_result oracle_result attestation_id price amount
        expiration is_usdon now = .error .AttestationAlreadyUsed) ∧
    (∀ (ctx ctx' : TokenManagerCtx) (secp_result oracle_result : Except OndoError Unit)
        (attestation_id price amount : Nat) (expiration : Int) (is_usdon : Bool) (now : Int),
      mint_with_attestation ctx secp_result oracle_result attestation_id price amount
        expiration is_usdon now = .ok ctx' →
      attestation_exists ctx.attestations attestation_id = false ∧
      attestation_exists ctx'.attestations attestation_id = true) ∧
    (∀ (ctx ctx' : TokenManagerCtx) (secp_result oracle_result : Except OndoError Unit)
        (attestation_id price amount : Nat) (expiration : Int) (is_usdon : Bool) (now : Int),
      redeem_with_attestation ctx secp_result oracle_result attestation_id price amount
        expiration is_usdon now = .ok ctx' →
      attestation_exists ctx.attestations attestation_id = false ∧
      attestation_exists ctx'.attestations attestation_id = true) := by
  refine ⟨?_, ?_, ?_, ?_⟩
  · intro ctx secp_result oracle_result attestation_id price amount expiration is_usdon now
      h1 h2 h3 h4 h5 h6 hhrs h7 h8 hex
    have hex1 : attestation_exists (initialize_ondo_user ctx).attestations attestation_id
        = true := by
      rw [(initialize_ondo_user_fields ctx).1]
      exact hex
    unfold mint_with_attestation
    simp only [requireP_true h1, requireP_true h2, requireP_true h3, requireP_true h4,
      requireP_true h5, requireP_true h6, requireP_true h7, requireP_true h8,
      hhrs, ok_bind]
    rw [initialize_attestation_account_used hex1, error_bind]
  · intro ctx secp_result oracle_result attestation_id price amount expiration is_usdon now
      h1 h2 h3 h4 h5 h6 hhrs h7 h8 hex
    have hex1 : attestation_exists (initialize_ondo_user ctx).attestations attestation_id
        = true := by
      rw [(initialize_ondo_user_fields ctx).1]
      exact hex
    unfold redeem_with_attestation
    simp only [requireP_true h1, requireP_true h2, requireP_true h3, requireP_true h4,
      requireP_true h5, requireP_true h6, requireP_true h7, requireP_true h8,
      hhrs, ok_bind]
    rw [initialize_attestation_account_used hex1, error_bind]
  · intro ctx ctx' secp_result oracle_result attestation_id price amount expiration
      is_usdon now h
    unfold mint_with_attestation at h
    rcases except_bind_ok.mp h with ⟨-, -, h⟩
    rcases except_bind_ok.mp h with ⟨-, -, h⟩
    rcases except_bind_ok.mp h with ⟨-, -, h⟩
    rcases except_bind_ok.mp h with ⟨-, -, h⟩
    rcases except_bind_ok.mp h with ⟨-, -, h⟩
    rcases except_bind_ok.mp h with ⟨-, -, h⟩
    rcases except_bind_ok.mp h with ⟨-, -, h⟩
    rcases except_bind_ok.mp h with ⟨-, -, h⟩
    rcases except_bind_ok.mp h with ⟨-, -, h⟩
    rcases except_bind_ok.mp h with ⟨ctx2, hatt, h⟩
    obtain ⟨hex0, hatts2⟩ := initialize_attestation_account_ok hatt
    rcases except_bind_ok.mp h with ⟨-, -, h⟩
    rcases except_bind_ok.mp h with ⟨-, -, h⟩
    rcases except_bind_ok.mp h with ⟨ctx3, hrate, h⟩
    have hatts3 := rate_limit_check_ok_attestations hrate
    have hctx' : ctx'.attestations = ctx3.attestations := by
      rcases is_usdon with _ | _
      · simp only [Bool.false_eq_true, if_false] at h
        rcases except_bind_ok.mp h with ⟨amount_sent, -, h⟩
        rcases except_bind_ok.mp h with ⟨normalized_amount, -, h⟩
        rcases except_bind_ok.mp h with ⟨-, -, h⟩
        cases h
        rfl
      · simp only [if_true] at h
        rcases except_bind_ok.mp h with ⟨amount_sent, -, h⟩
        rcases except_bind_ok.mp h with ⟨-, -, h⟩
        cases h
        rfl
    constructor
    · rw [(initialize_ondo_user_fields ctx).1] at hex0
      exact hex0
    · rw [hctx', hatts3, hatts2]
      simp [attestation_exists]
  · intro ctx ctx' secp_result oracle_result attestation_id price amount expiration
      is_usdon now h
    unfold redeem_with_attestation at h
    rcases except_bind_ok.mp h with ⟨-, -, h⟩
    rcases except_bind_ok.mp h with ⟨-, -, h⟩
    rcases except_bind_ok.mp h with ⟨-, -, h⟩
    rcases except_bind_ok.mp h with ⟨-, -, h⟩
    rcases except_bind_ok.mp h with ⟨-, -, h⟩
    rcases except_bind_ok.mp h with ⟨-, -, h⟩
    rcases except_bind_ok.mp h with ⟨-, -, h⟩
    rcases except_bind_ok.mp h with ⟨-, -, h⟩
    rcases except_bind_ok.mp h with ⟨-, -, h⟩
    rcases except_bind_ok.mp h with ⟨ctx2, hatt, h⟩
    obtain ⟨hex0, hatts2⟩ := initialize_attestation_account_ok hatt
    rcases except_bind_ok.mp h with ⟨-, -, h⟩
    rcases except_bind_ok.mp h with ⟨-, -, h⟩
    rcases except_bind_ok.mp h with ⟨ctx3, hrate, h⟩
    have hatts3 := rate_limit_check_ok_attestations hrate
    rcases except_bind_ok.mp h with ⟨mint_amount, -, h⟩
    rcases except_bind_ok.mp h with ⟨-, -, h⟩
    rcases except_bind_ok.mp h with ⟨-, -, h⟩
    cases h
    constructor
    · rw [(initialize_ondo_user_fields ctx).1] at hex0
      exact hex0
    · rw [hatts3, hatts2]
      simp [attestation_exists]

/-- Closed witness for C1: replaying a consumed attestation id on a
context where every earlier check passes, at a concrete input. -/
theorem C1_witness :
    mint_with_attestation
      { ctxEx with attestations :=
          [{ attestation_id := 5, creator := 1, created_at := 0 }] }
      (Except.ok ()) (Except.ok ()) 5 1000000000 1000000000 345601 true 345600 =
      Except.error .AttestationAlreadyUsed :=
  C1_replay_guard_spec.1
    { ctxEx with attestations := [{ attestation_id := 5, creator := 1, created_at := 0 }] }
    (Except.ok ()) (Except.ok ()) 5 1000000000 1000000000 345601 true 345600
    rfl rfl rfl rfl (by decide) (by decide) (by decide) (by decide) (by decide) (by decide)

/-- C7: both trade flows require `now < expiration` (failing with the
attestation-expired error otherwise) and `expiration - now ≤ 30`
(failing with the distinct expiration-too-large error otherwise); an
attestation with `expiration = now + 31` fails as too large even
though `now < expiration`. -/
theorem C7_expiration_window_spec :
    (∀ (ctx : TokenManagerCtx) (secp_result oracle_result : Except OndoError Unit)
        (attestation_id price amount : Nat) (expiration : Int) (is_usdon : Bool) (now : Int),
      ctx.accounts_valid = true →
      ctx.gmtoken_manager_state.minting_paused = false →
      ctx.token_limit_account.minting_paused = false →
      ctx.whitelisted = true →
      0 < amount → 0 < price →
      check_is_valid_hours ctx.gmtoken_manager_state now = .ok () →
      expiration ≤ now →
      mint_with_attestation ctx secp_result oracle_result attestation_id price amount
        expiration is_usdon now = .error .AttestationExpired) ∧
    (∀ (ctx : TokenManagerCtx) (secp_result oracle_result : Except OndoError Unit)
        (attestation_id price amount : Nat) (expiration : Int) (is_usdon : Bool) (now : Int),
      ctx.accounts_valid = true →
      ctx.gmtoken_manager_state.minting_paused = false →
      ctx.token_limit_account.minting_paused = false →
      ctx.whitelisted = true →
      0 < amount → 0 < price →
      check_is_valid_hours ctx.gmtoken_manager_state now = .ok () →
      now < expiration → MAX_ATTESTATION_EXPIRATION < expiration - now →
      mint_with_attestation ctx secp_result oracle_result attestation_id price amount
        expiration is_usdon now = .error .AttestationExpirationTooLarge) ∧
    (∀ (ctx : TokenManagerCtx) (secp_result oracle_result : Except OndoError Unit)
        (attestation_id price amount : Nat) (expiration : Int) (is_usdon : Bool) (now : Int),
      ctx.accounts_valid = true →
      ctx.gmtoken_manager_state.redemption_paused = false →
      ctx.token_limit_account.redemption_paused = false →
      ctx.whitelisted = true →
      0 < amount → 0 < price →
      check_is_valid_hours ctx.gmtoken_manager_state now = .ok () →
      expiration ≤ now →
      redeem_with_attestation ctx secp_result oracle_result attestation_id price amount
        expiration is_usdon now = .error .AttestationExpired) ∧
    (∀ (ctx : TokenManagerCtx) (secp_result oracle_result : Except OndoError Unit)
        (attestation_id price amount : Nat) (expiration : Int) (is_usdon : Bool) (now : Int),
      ctx.accounts_valid = true →
      ctx.gmtoken_manager_state.redemption_paused = false →
      ctx.token_limit_account.redemption_paused = false →
      ctx.whitelisted = true →
      0 < amount → 0 < price →
      check_is_valid_hours ctx.gmtoken_manager_state now = .ok () →
      now < expiration → MAX_ATTESTATION_EXPIRATION < expiration - now →
      redeem_with_attestation ctx secp_result oracle_result attestation_id price amount
        expiration is_usdon now = .error .AttestationExpirationTooLarge) ∧
    (∀ (ctx : TokenManagerCtx) (secp_result oracle_result : Except OndoError Unit)
        (attestation_id price amount : Nat) (is_usdon : Bool) (now : Int),
      ctx.accounts_valid = true →
      ctx.gmtoken_manager_state.minting_paused = false →
      ctx.token_limit_account.minting_paused = false →
      ctx.whitelisted = true →
      0 < amount → 0 < price →
      check_is_valid_hours ctx.gmtoken_manager_state now = .ok () →
      mint_with_attestation ctx secp_result oracle_result attestation_id price amount
        (now + 31) is_usdon now = .error .AttestationExpirationTooLarge) := by
  have hmintExp : ∀ (ctx : TokenManagerCtx)
      (secp_result oracle_result : Except OndoError Unit)
      (attestation_id price amount : Nat) (expiration : Int) (is_usdon : Bool) (now : Int),
      ctx.accounts_valid = true →
      ctx.gmtoken_manager_state.minting_paused = false →
      ctx.token_limit_account.minting_paused = false →
      ctx.whitelisted = true →
      0 < amount → 0 < price →
      check_is_valid_hours ctx.gmtoken_manager_state now = .ok () →
      expiration ≤ now →
      mint_with_attestation ctx secp_result oracle_result attestation_id price amount
        expiration is_usdon now = .error .AttestationExpired := by
    intro ctx secp_result oracle_result attestation_id price amount expiration is_usdon now
      h1 h2 h3 h4 h5 h6 hhrs hexp
    unfold mint_with_attestation
    simp only [requireP_true h1, requireP_true h2, requireP_true h3, requireP_true h4,
      requireP_true h5, requireP_true h6, hhrs, ok_bind]
    rw [requireP_false (by omega : ¬ now < expiration), error_bind]
  have hmintBig : ∀ (ctx : TokenManagerCtx)
      (secp_result oracle_result : Except OndoError Unit)
      (attestation_id price amount : Nat) (expiration : Int) (is_usdon : Bool) (now : Int),
      ctx.accounts_valid = true →
      ctx.gmtoken_manager_state.minting_paused = false →
      ctx.token_limit_account.minting_paused = false →
      ctx.whitelisted = true →
      0 < amount → 0 < price →
      check_is_valid_hours ctx.gmtoken_manager_state now = .ok () →
      now < expiration → MAX_ATTESTATION_EXPIRATION < expiration - now →
      mint_with_attestation ctx secp_result oracle_result attestation_id price amount
        expiration is_usdon now = .error .AttestationExpirationTooLarge := by
    intro ctx secp_result oracle_result attestation_id price amount expiration is_usdon now
      h1 h2 h3 h4 h5 h6 hhrs h7 hbig
    unfold mint_with_attestation
    simp only [requireP_true h1, requireP_true h2, requireP_true h3, requireP_true h4,
      requireP_true h5, requireP_true h6, requireP_true h7, hhrs, ok_bind]
    rw [requireP_false (by omega : ¬ expiration - now ≤ MAX_ATTESTATION_EXPIRATION),
      error_bind]
  refine ⟨hmintExp, hmintBig, ?_, ?_, ?_⟩
  · intro ctx secp_result oracle_result attestation_id price amount expiration is_usdon now
      h1 h2 h3 h4 h5 h6 hhrs hexp
    unfold redeem_with_attestation
    simp only [requireP_true h1, requireP_true h2, requireP_true h3, requireP_true h4,
      requireP_true h5, requireP_true h6, hhrs, ok_bind]
    rw [requireP_false (by omega : ¬ now < expiration), error_bind]
  · intro ctx secp_result oracle_result attestation_id price amount expiration is_usdon now
      h1 h2 h3 h4 h5 h6 hhrs h7 hbig
    unfold redeem_with_attestation
    simp only [requireP_true h1, requireP_true h2, requireP_true h3, requireP_true h4,
      requireP_true h5, requireP_true h6, requireP_true h7, hhrs, ok_bind]
    rw [requireP_false (by omega : ¬ expiration - now ≤ MAX_ATTESTATION_EXPIRATION),
      error_bind]
  · intro ctx secp_result oracle_result attestation_id price amount is_usdon now
      h1 h2 h3 h4 h5 h6 hhrs
    exact hmintBig ctx secp_result oracle_result attestation_id price amount (now + 31)
      is_usdon now h1 h2 h3 h4 h5 h6 hhrs (by omega)
      (by unfold MAX_ATTESTATION_EXPIRATION; omega)

/-- Closed witness for C7 at a concrete input. -/
theorem C7_witness :
    mint_with_attestation ctxEx (Except.ok ()) (Except.ok ()) 5 1 1 345631 true 345600 =
      Except.error .AttestationExpirationTooLarge :=
  C7_expiration_window_spec.2.2.2.2 ctxEx (Except.ok ()) (Except.ok ()) 5 1 1 true 345600
    rfl rfl rfl rfl (by decide) (by decide) (by decide)

end OndoGM
